import Mathlib

/-!
A shallow embedding of `src/python/vineyard/cli.py` (the `vineyard-ctl`
command line tool), covering connection resolution, config-file
persistence, object-id resolution, command dispatch and the query
handler, together with theorems about the specified behaviour.

Python strings are modelled by `String`, working at the level of their
character lists; Python `None`-able values by `Option`; raised
exceptions by explicit error results.
-/

/-- String concatenation concatenates the underlying character lists. -/
theorem data_append (s t : String) : (s ++ t).data = s.data ++ t.data := rfl

/-- Two strings with the same characters are equal. -/
theorem string_ext (s t : String) (h : s.data = t.data) : s = t := by
  cases s; cases t; exact congrArg String.mk h

/-- Helper for `pySplit`: `acc` is the piece read so far. -/
def pySplitAux : List Char → List Char → List String
  | [], acc => [String.mk acc]
  | c :: cs, acc =>
    if c = ':' then String.mk acc :: pySplitAux cs [] else pySplitAux cs (acc ++ [c])

/-- Models Python `s.split(':')`: split at every colon, keeping empty pieces. -/
def pySplit (s : String) : List String := pySplitAux s.data []

/-- Models Python `s[:-1]`: drop the final character (identity on `""`). -/
def pyDropLast (s : String) : String := String.mk s.data.dropLast

/-- Whitespace characters stripped by Python's `int()` around a numeral. -/
def isSpaceChar (c : Char) : Bool :=
  c = ' ' || c = '\t' || c = '\n' || c = '\r' || c = '\x0b' || c = '\x0c'

/-- A decimal digit character. -/
def isDigitChar (c : Char) : Bool :=
  decide (48 ≤ c.toNat) && decide (c.toNat ≤ 57)

/-- The value of a nonempty all-digit character sequence, `none` otherwise. -/
def digitsToNat : List Char → Option Nat
  | [] => none
  | cs =>
    if cs.all isDigitChar then some (cs.foldl (fun n c => 10 * n + (c.toNat - 48)) 0)
    else none

/-- Models Python `int(s)` on strings: decimal literal with optional sign and
surrounding whitespace, `none` on parse failure (`ValueError`); digit-grouping
underscores are not modelled. -/
def pyInt (s : String) : Option Int :=
  match (s.data.dropWhile isSpaceChar).reverse.dropWhile isSpaceChar |>.reverse with
  | '+' :: rest => (digitsToNat rest).map (fun n => (n : Int))
  | '-' :: rest => (digitsToNat rest).map (fun n => -(n : Int))
  | t => (digitsToNat t).map (fun n => (n : Int))

/-- Helper for `readlines`: `acc` is the current (unterminated) line. -/
def readlinesAux : List Char → List Char → List String
  | [], acc => if acc = [] then [] else [String.mk acc]
  | c :: cs, acc =>
    if c = '\n' then String.mk (acc ++ ['\n']) :: readlinesAux cs []
    else readlinesAux cs (acc ++ [c])

/-- Models Python `file.readlines()` on the file's content: split into lines,
each keeping its trailing newline; a final unterminated line is kept,
an empty tail is not. -/
def readlines (s : String) : List String := readlinesAux s.data []

/-- `vineyard.ObjectID` is external; a resolved object identifier is either a
plain integer or the opaque wrapped form (`vineyard.ObjectID.wrap`). -/
inductive ObjectIdentifier where
  | intId (n : Int)
  | wrapped (s : String)
deriving DecidableEq, Repr

/-- `as_object_id` from `cli.py`: try `int(object_id)` first and return the
integer on success; on `ValueError` return `vineyard.ObjectID.wrap(object_id)`. -/
def as_object_id (object_id : String) : ObjectIdentifier :=
  match pyInt object_id with
  | some n => .intId n
  | none => .wrapped object_id

/-- Observable actions performed by `main` (connection modelled as a single
`connectAttempt` action which, when it returns, yields the session). -/
inductive MainAction where
  | printHelpStderr
  | exitNonZero
  | connectAttempt
  | runConfig
  | runHandler (name : String)
deriving DecidableEq, Repr

/-- The action trace of `main` from `cli.py`, as a function of the parsed
`args.cmd`, for a run in which the connection attempt (if any) returns:
no command prints help and exits; `config` runs without connecting; every
other command first connects via `connect_vineyard`, then either runs its
handler or falls through to `exit_with_help()`. -/
def main_actions (cmd : Option String) : List MainAction :=
  match cmd with
  | none => [.printHelpStderr, .exitNonZero]
  | some c =>
    if c = "config" then [.runConfig]
    else
      .connectAttempt ::
        (if c = "ls" then [.runHandler "ls"]
         else if c = "query" then [.runHandler "query"]
         else if c = "del" then [.runHandler "del"]
         else if c = "stat" then [.runHandler "stat"]
         else if c = "put" then [.runHandler "put"]
         else [.printHelpStderr, .exitNonZero])

/-- The options record the argument parser hands to the `query` handler
(`args.exists` is rendered as `existsFlag`). -/
structure QueryArgs where
  object_id : String
  meta : Option String
  metric : Option String
  existsFlag : Bool
  copy : Bool
  head : Bool
  stdout : Bool
  output_file : Option String
  tree : Bool

/-- The value fetched from the store (external): its `str(...)` form, the
`str` of its `.meta`, the JSON-indented dump of its `.meta`, and its metric
attributes read via `getattr`. -/
structure FetchedValue where
  str : String
  meta : String
  metaJson : String
  attr : String → String

/-- Observable output of the `query` handler: `print(...)` lines,
`sys.stdout.write(...)` chunks, and file writes. -/
inductive OutputEvent where
  | stdoutLine (s : String)
  | stdoutWrite (s : String)
  | fileWrite (path content : String)

/-- The message printed by `query` when `--exists` is set and the fetch failed. -/
def notExistsMsg (object_id : String) : String :=
  "The object with object_id(" ++ object_id ++ ") doesn't exists"

/-- The message printed by `query` when `--exists` is set and the fetch succeeded. -/
def existsMsg (object_id : String) : String :=
  "The object with object_id(" ++ object_id ++ ") exists"

/-- The wrapped failure raised by `query` when the fetch fails. -/
def queryFailMsg (object_id exc : String) : String :=
  "The following error was encountered while fetching the vineyard object(" ++
    object_id ++ "):\n" ++ exc

/-- The `query` handler from `cli.py`, as a function of the result of
`client.get_object(as_object_id(args.object_id))` (external, passed in as
`fetch`) and the parsed options: it returns the output events in order and
either success or the raised wrapped exception message. -/
def query_run (fetch : Except String FetchedValue) (args : QueryArgs) :
    List OutputEvent × Except String Unit :=
  match fetch with
  | .error exc =>
    ((if args.existsFlag then [.stdoutLine (notExistsMsg args.object_id)] else []),
     .error (queryFailMsg args.object_id exc))
  | .ok value =>
    let out1 := [OutputEvent.stdoutLine ("The vineyard object you requested:\n" ++ value.str)]
    let out2 := if args.existsFlag then [OutputEvent.stdoutLine (existsMsg args.object_id)] else []
    let out3 := if args.stdout then [OutputEvent.stdoutWrite (value.str ++ "\n")] else []
    let out4 := match args.output_file with
      | some f => [OutputEvent.fileWrite f value.str]
      | none => []
    let out5 := match args.meta with
      | some m =>
        if m = "simple" then [OutputEvent.stdoutLine ("Meta data of the object:\n" ++ value.meta)]
        else if m = "json" then
          [OutputEvent.stdoutLine ("Meta data of the object in JSON format:\n" ++ value.metaJson)]
        else []
      | none => []
    let out6 := match args.metric with
      | some m => [OutputEvent.stdoutLine (m ++ ": " ++ value.attr m)]
      | none => []
    (out1 ++ out2 ++ out3 ++ out4 ++ out5 ++ out6, .ok ())

/-- C7: `as_object_id` first attempts an integer parse and on success returns
that integer (`"12345"` yields the integer `12345`); on parse failure it
returns the opaque wrapped identifier holding exactly the raw string
(`"o0001234"` wraps that exact string); every string maps to one of the two
forms, so the resolver never fails. -/
theorem c7_object_id_resolution :
    as_object_id "12345" = .intId 12345
    ∧ as_object_id "o0001234" = .wrapped "o0001234"
    ∧ ∀ s, (∃ n, pyInt s = some n ∧ as_object_id s = .intId n)
        ∨ (pyInt s = none ∧ as_object_id s = .wrapped s) := by
  refine ⟨by decide, by decide, fun s => ?_⟩
  cases h : pyInt s with
  | some n => exact Or.inl ⟨n, rfl, by simp [as_object_id, h]⟩
  | none => exact Or.inr ⟨rfl, by simp [as_object_id, h]⟩

/-- C10: the `query` handler never reads the `--copy`, `--head` or `--tree`
flags: for every fetch outcome and every setting of the other options, two
runs differing only in those three flags produce the same output events
(stdout and file writes) and the same success-or-failure result. -/
theorem c10_query_ignores_copy_head_tree (fetch : Except String FetchedValue)
    (args : QueryArgs) (c h t : Bool) :
    query_run fetch { args with copy := c, head := h, tree := t } = query_run fetch args := by
  cases fetch <;> rfl

/-- C4: when the fetch in `query` fails, if `--exists` is set the handler
first prints the not-found message naming the object id and then still raises
the wrapped failure naming the fetch operation and the object id; without
`--exists` the same failure raises the wrapped failure with no existence
message and no other output. -/
theorem c4_query_exists_failure (args : QueryArgs) (exc : String) :
    (args.existsFlag = true →
      query_run (.error exc) args =
        ([.stdoutLine (notExistsMsg args.object_id)],
         .error (queryFailMsg args.object_id exc)))
    ∧ (args.existsFlag = false →
      query_run (.error exc) args = ([], .error (queryFailMsg args.object_id exc))) := by
  constructor <;> intro h <;> simp [query_run, h]

/-- A concrete options record for the `query` handler, with `--exists` set. -/
def queryArgsEx : QueryArgs :=
  { object_id := "999", meta := none, metric := none, existsFlag := true,
    copy := false, head := false, stdout := false, output_file := none, tree := false }

/-- Witness for C4 at the concrete input `--object_id 999 --exists` with a
failing fetch. -/
theorem c4_query_exists_failure_witness :
    query_run (.error "object not found") queryArgsEx =
      ([.stdoutLine (notExistsMsg "999")],
       .error (queryFailMsg "999" "object not found")) :=
  (c4_query_exists_failure queryArgsEx "object not found").1 rfl

/-- C5 (amended): with no subcommand, `main` prints full help to stderr and
exits non-zero without attempting a connection; but a present-yet-unrecognized
subcommand value reaching the dispatcher causes a connection attempt *first*,
and only then the help-and-exit (the final `exit_with_help()` fall-through in
`main` sits after `connect_vineyard`). -/
theorem c5_dispatch_help_exit :
    main_actions none = [.printHelpStderr, .exitNonZero]
    ∧ ∀ c, c ≠ "config" → c ≠ "ls" → c ≠ "query" → c ≠ "del" → c ≠ "stat" → c ≠ "put" →
        main_actions (some c) = [.connectAttempt, .printHelpStderr, .exitNonZero] := by
  refine ⟨rfl, fun c h0 h1 h2 h3 h4 h5 => ?_⟩
  simp [main_actions, h0, h1, h2, h3, h4, h5]

/-- Witness for C5 (amended) at the concrete unrecognized subcommand `"bogus"`. -/
theorem c5_dispatch_help_exit_witness :
    main_actions (some "bogus") = [.connectAttempt, .printHelpStderr, .exitNonZero] :=
  c5_dispatch_help_exit.2 "bogus" (by decide) (by decide) (by decide) (by decide)
    (by decide) (by decide)

/-- Counterexample to C5 as stated: for the unrecognized subcommand
`"frobnicate"` the dispatcher attempts a connection *before* printing help and
exiting, so the exit is not connection-free. -/
theorem c5_counterexample :
    main_actions (some "frobnicate") = [.connectAttempt, .printHelpStderr, .exitNonZero]
    ∧ MainAction.connectAttempt ∈ main_actions (some "frobnicate") := by
  constructor
  · rfl
  · decide

/-- The configuration error raised by `connect_via_config_file`: the wrapped
underlying cause (modelled as a descriptive string standing for `str(exc)`). -/
structure ConfigError where
  cause : String
deriving DecidableEq, Repr

/-- The message of the exception raised by `connect_via_config_file` on any
failure while reading the config file. -/
def ConfigError.message (e : ConfigError) : String :=
  "The config file is either not present or not formatted correctly.\n" ++ e.cause

/-- The four values recovered from the config file by
`connect_via_config_file`: `ipc_socket`, `rpc_host`, the integer-parsed
`rpc_port` (absent when the parse failed) and `rpc_endpoint`. -/
structure LoadedConfig where
  ipc_socket : String
  rpc_host : String
  rpc_port : Option Int
  rpc_endpoint : String
deriving DecidableEq, Repr

/-- Result of the config-file parsing portion of `connect_via_config_file`. -/
inductive LoadResult where
  | ok (cfg : LoadedConfig)
  | error (e : ConfigError)
deriving DecidableEq, Repr

/-- `sockets[i].split(':')[1][:-1]` from `cli.py`: `none` models the
`IndexError` raised when the line is absent or has no colon. -/
def pyLineValue (sockets : List String) (i : Nat) : Option String :=
  (sockets.get? i).bind fun line => ((pySplit line).get? 1).map pyDropLast

/-- The config-file parsing portion of `connect_via_config_file` (lines
153-164 of `cli.py`): `file` is `none` when the file cannot be opened,
otherwise the file's text. The three `sockets[i].split(':')[1][:-1]`
extractions for `ipc_socket`, `rpc_host`, `rpc_endpoint` raise into the outer
handler on failure; the `rpc_port` extraction and `int(...)` parse sit inside
their own bare `except` and collapse to `None` on any failure. Both the
out-of-range line index and the missing-colon split index raise Python's
`IndexError('list index out of range')`. -/
def config_load (file : Option String) : LoadResult :=
  match file with
  | none => .error ⟨"could not open the config file"⟩
  | some content =>
    let sockets := readlines content
    match pyLineValue sockets 0 with
    | none => .error ⟨"list index out of range"⟩
    | some ipc_socket =>
      match pyLineValue sockets 1 with
      | none => .error ⟨"list index out of range"⟩
      | some rpc_host =>
        let rpc_port : Option Int := (pyLineValue sockets 2).bind pyInt
        match pyLineValue sockets 3 with
        | none => .error ⟨"list index out of range"⟩
        | some rpc_endpoint => .ok ⟨ipc_socket, rpc_host, rpc_port, rpc_endpoint⟩

/-- Python list assignment `xs[i] = v`: `none` models the `IndexError` when
`i` is out of range. -/
def pySetLine (xs : List String) (i : Nat) (v : String) : Option (List String) :=
  if i < xs.length then some (xs.set i v) else none

/-- The `config` subcommand from `cli.py`: read the existing lines with
`readlines`, overwrite the line of each supplied `--*_value` flag (the first
three serialized with a trailing newline, the `rpc_endpoint` line without
one), and write the lines back with `writelines` (plain concatenation).
`none` models an uncaught `IndexError` on a too-short file. -/
def config (file : String)
    (ipc_socket_value rpc_host_value rpc_port_value rpc_endpoint_value : Option String) :
    Option String :=
  let sockets := readlines file
  (match ipc_socket_value with
   | some v => pySetLine sockets 0 ("ipc_socket:" ++ v ++ "\n")
   | none => some sockets).bind fun s0 =>
  (match rpc_host_value with
   | some v => pySetLine s0 1 ("rpc_host:" ++ v ++ "\n")
   | none => some s0).bind fun s1 =>
  (match rpc_port_value with
   | some v => pySetLine s1 2 ("rpc_port:" ++ v ++ "\n")
   | none => some s1).bind fun s2 =>
  (match rpc_endpoint_value with
   | some v => pySetLine s2 3 ("rpc_endpoint:" ++ v)
   | none => some s2).map fun s3 =>
  String.join s3

/-- The text of a four-line config file in the well-known format: keys in
fixed order, the first three lines newline-terminated, the fourth not. -/
def mkConfigFile (a b c d : String) : String :=
  "ipc_socket:" ++ a ++ "\n" ++ "rpc_host:" ++ b ++ "\n" ++ "rpc_port:" ++ c ++ "\n" ++
    "rpc_endpoint:" ++ d

/-- A plain config value: no colon and no newline among its characters. -/
def plain (s : String) : Prop := ':' ∉ s.data ∧ '\n' ∉ s.data

instance (s : String) : Decidable (plain s) := by unfold plain; infer_instance

/-- The characters of a `String.mk`. -/
theorem data_mk (l : List Char) : (String.mk l).data = l := rfl

/-- The characters of the one-character string `"\n"`. -/
theorem data_newline : ("\n" : String).data = ['\n'] := rfl

/-- A character differing from `y` and not in `l` is not in `l ++ [y]`. -/
theorem notMem_append_singleton {x y : Char} {l : List Char} (h1 : x ∉ l) (h2 : x ≠ y) :
    x ∉ l ++ [y] := by
  intro hmem
  rcases List.mem_append.mp hmem with hm | hm
  · exact h1 hm
  · exact h2 (List.mem_singleton.mp hm)

/-- `readlinesAux` cuts a newline-free chunk before a `'\n'` as one line. -/
theorem readlinesAux_split (xs rest acc : List Char) (h : '\n' ∉ xs) :
    readlinesAux (xs ++ '\n' :: rest) acc
      = String.mk (acc ++ xs ++ ['\n']) :: readlinesAux rest [] := by
  induction xs generalizing acc with
  | nil => simp [readlinesAux]
  | cons x xs ih =>
    have hx : x ≠ '\n' := fun hx => h (hx ▸ List.mem_cons_self x xs)
    have h' : '\n' ∉ xs := fun hm => h (List.mem_cons_of_mem x hm)
    simp only [List.cons_append, readlinesAux, if_neg hx, List.append_eq]
    rw [ih (acc ++ [x]) h']
    simp

/-- A final newline-free nonempty chunk is kept as the last line. -/
theorem readlinesAux_last (xs acc : List Char) (h : '\n' ∉ xs) (hne : acc ++ xs ≠ []) :
    readlinesAux xs acc = [String.mk (acc ++ xs)] := by
  induction xs generalizing acc with
  | nil =>
    simp only [List.append_nil] at hne ⊢
    simp [readlinesAux, hne]
  | cons x xs ih =>
    have hx : x ≠ '\n' := fun hx => h (hx ▸ List.mem_cons_self x xs)
    have h' : '\n' ∉ xs := fun hm => h (List.mem_cons_of_mem x hm)
    simp only [readlinesAux, if_neg hx]
    rw [ih (acc ++ [x]) h' (by simp)]
    simp

/-- `readlines` on a well-formed four-line config file with newline-free
values recovers exactly the four physical lines. -/
theorem readlines_mkConfigFile (a b c d : String)
    (ha : '\n' ∉ a.data) (hb : '\n' ∉ b.data) (hc : '\n' ∉ c.data) (hd : '\n' ∉ d.data) :
    readlines (mkConfigFile a b c d)
      = [String.mk ("ipc_socket:".data ++ a.data ++ ['\n']),
         String.mk ("rpc_host:".data ++ b.data ++ ['\n']),
         String.mk ("rpc_port:".data ++ c.data ++ ['\n']),
         String.mk ("rpc_endpoint:".data ++ d.data)] := by
  have hdata : (mkConfigFile a b c d).data
      = ("ipc_socket:".data ++ a.data) ++ '\n' ::
        (("rpc_host:".data ++ b.data) ++ '\n' ::
         (("rpc_port:".data ++ c.data) ++ '\n' ::
          ("rpc_endpoint:".data ++ d.data))) := by
    simp [mkConfigFile, data_append, data_newline, List.append_assoc]
  have h0 : '\n' ∉ "ipc_socket:".data ++ a.data := by
    intro hm
    rcases List.mem_append.mp hm with hm | hm
    · exact absurd hm (by decide)
    · exact ha hm
  have h1 : '\n' ∉ "rpc_host:".data ++ b.data := by
    intro hm
    rcases List.mem_append.mp hm with hm | hm
    · exact absurd hm (by decide)
    · exact hb hm
  have h2 : '\n' ∉ "rpc_port:".data ++ c.data := by
    intro hm
    rcases List.mem_append.mp hm with hm | hm
    · exact absurd hm (by decide)
    · exact hc hm
  have h3 : '\n' ∉ "rpc_endpoint:".data ++ d.data := by
    intro hm
    rcases List.mem_append.mp hm with hm | hm
    · exact absurd hm (by decide)
    · exact hd hm
  have hne : "rpc_endpoint:".data ++ d.data ≠ [] := by
    intro heq
    exact absurd (List.append_eq_nil.mp heq).1 (by decide)
  unfold readlines
  rw [hdata, readlinesAux_split _ _ _ h0, readlinesAux_split _ _ _ h1,
    readlinesAux_split _ _ _ h2, readlinesAux_last _ _ h3 hne]
  simp

/-- `pySplitAux` cuts a colon-free chunk before a `':'` as one piece. -/
theorem pySplitAux_split (xs rest acc : List Char) (h : ':' ∉ xs) :
    pySplitAux (xs ++ ':' :: rest) acc = String.mk (acc ++ xs) :: pySplitAux rest [] := by
  induction xs generalizing acc with
  | nil => simp [pySplitAux]
  | cons x xs ih =>
    have hx : x ≠ ':' := fun hx => h (hx ▸ List.mem_cons_self x xs)
    have h' : ':' ∉ xs := fun hm => h (List.mem_cons_of_mem x hm)
    simp only [List.cons_append, pySplitAux, if_neg hx, List.append_eq]
    rw [ih (acc ++ [x]) h']
    simp

/-- A final colon-free chunk is kept as the last piece. -/
theorem pySplitAux_last (xs acc : List Char) (h : ':' ∉ xs) :
    pySplitAux xs acc = [String.mk (acc ++ xs)] := by
  induction xs generalizing acc with
  | nil => simp [pySplitAux]
  | cons x xs ih =>
    have hx : x ≠ ':' := fun hx => h (hx ▸ List.mem_cons_self x xs)
    have h' : ':' ∉ xs := fun hm => h (List.mem_cons_of_mem x hm)
    simp only [pySplitAux, if_neg hx]
    rw [ih (acc ++ [x]) h']
    simp

/-- Splitting a `key:tail` line with colon-free `key` and `tail` yields
exactly the two pieces. -/
theorem pySplit_line (key tail : List Char) (hk : ':' ∉ key) (ht : ':' ∉ tail) :
    pySplit (String.mk (key ++ ':' :: tail)) = [String.mk key, String.mk tail] := by
  unfold pySplit
  rw [data_mk, pySplitAux_split _ _ _ hk, pySplitAux_last _ _ ht]
  simp

/-- Dropping the final character of `l ++ [ch]` gives back `l`. -/
theorem pyDropLast_mk_append (l : List Char) (ch : Char) :
    pyDropLast (String.mk (l ++ [ch])) = String.mk l := by
  unfold pyDropLast
  rw [data_mk, List.dropLast_concat]

/-- `config_load` on a well-formed four-line config file with plain values:
the first three values come back with only their trailing newline stripped
(`rpc_port` further integer-parsed), while the `rpc_endpoint` value loses its
final character to the same `[:-1]` even though its line has no newline. -/
theorem config_load_mkConfigFile (a b c d : String)
    (ha : plain a) (hb : plain b) (hc : plain c) (hd : plain d) :
    config_load (some (mkConfigFile a b c d)) = .ok ⟨a, b, pyInt c, pyDropLast d⟩ := by
  have h4 := readlines_mkConfigFile a b c d ha.2 hb.2 hc.2 hd.2
  have l0 : pySplit (String.mk ("ipc_socket:".data ++ a.data ++ ['\n']))
      = [String.mk "ipc_socket".data, String.mk (a.data ++ ['\n'])] := by
    rw [show "ipc_socket:".data ++ a.data ++ ['\n']
          = "ipc_socket".data ++ ':' :: (a.data ++ ['\n']) by simp]
    exact pySplit_line _ _ (by decide)
      (notMem_append_singleton ha.1 (by decide))
  have l1 : pySplit (String.mk ("rpc_host:".data ++ b.data ++ ['\n']))
      = [String.mk "rpc_host".data, String.mk (b.data ++ ['\n'])] := by
    rw [show "rpc_host:".data ++ b.data ++ ['\n']
          = "rpc_host".data ++ ':' :: (b.data ++ ['\n']) by simp]
    exact pySplit_line _ _ (by decide)
      (notMem_append_singleton hb.1 (by decide))
  have l2 : pySplit (String.mk ("rpc_port:".data ++ c.data ++ ['\n']))
      = [String.mk "rpc_port".data, String.mk (c.data ++ ['\n'])] := by
    rw [show "rpc_port:".data ++ c.data ++ ['\n']
          = "rpc_port".data ++ ':' :: (c.data ++ ['\n']) by simp]
    exact pySplit_line _ _ (by decide)
      (notMem_append_singleton hc.1 (by decide))
  have l3 : pySplit (String.mk ("rpc_endpoint:".data ++ d.data))
      = [String.mk "rpc_endpoint".data, String.mk d.data] := by
    rw [show "rpc_endpoint:".data ++ d.data
          = "rpc_endpoint".data ++ ':' :: d.data by simp]
    exact pySplit_line _ _ (by decide) hd.1
  have e0 : pyLineValue
      [String.mk ("ipc_socket:".data ++ a.data ++ ['\n']),
       String.mk ("rpc_host:".data ++ b.data ++ ['\n']),
       String.mk ("rpc_port:".data ++ c.data ++ ['\n']),
       String.mk ("rpc_endpoint:".data ++ d.data)] 0 = some a := by
    show ((pySplit (String.mk ("ipc_socket:".data ++ a.data ++ ['\n']))).get? 1).map pyDropLast
        = some a
    rw [l0]
    show some (pyDropLast (String.mk (a.data ++ ['\n']))) = some a
    rw [pyDropLast_mk_append]
  have e1 : pyLineValue
      [String.mk ("ipc_socket:".data ++ a.data ++ ['\n']),
       String.mk ("rpc_host:".data ++ b.data ++ ['\n']),
       String.mk ("rpc_port:".data ++ c.data ++ ['\n']),
       String.mk ("rpc_endpoint:".data ++ d.data)] 1 = some b := by
    show ((pySplit (String.mk ("rpc_host:".data ++ b.data ++ ['\n']))).get? 1).map pyDropLast
        = some b
    rw [l1]
    show some (pyDropLast (String.mk (b.data ++ ['\n']))) = some b
    rw [pyDropLast_mk_append]
  have e2 : pyLineValue
      [String.mk ("ipc_socket:".data ++ a.data ++ ['\n']),
       String.mk ("rpc_host:".data ++ b.data ++ ['\n']),
       String.mk ("rpc_port:".data ++ c.data ++ ['\n']),
       String.mk ("rpc_endpoint:".data ++ d.data)] 2 = some c := by
    show ((pySplit (String.mk ("rpc_port:".data ++ c.data ++ ['\n']))).get? 1).map pyDropLast
        = some c
    rw [l2]
    show some (pyDropLast (String.mk (c.data ++ ['\n']))) = some c
    rw [pyDropLast_mk_append]
  have e3 : pyLineValue
      [String.mk ("ipc_socket:".data ++ a.data ++ ['\n']),
       String.mk ("rpc_host:".data ++ b.data ++ ['\n']),
       String.mk ("rpc_port:".data ++ c.data ++ ['\n']),
       String.mk ("rpc_endpoint:".data ++ d.data)] 3 = some (pyDropLast d) := by
    show ((pySplit (String.mk ("rpc_endpoint:".data ++ d.data))).get? 1).map pyDropLast
        = some (pyDropLast d)
    rw [l3]
    rfl
  simp only [config_load]
  rw [h4]
  simp only [e0, e1, e2, e3]
  rfl

/-- `String.join` of four strings is their concatenation. -/
theorem join_four (s0 s1 s2 s3 : String) :
    String.join [s0, s1, s2, s3] = s0 ++ s1 ++ s2 ++ s3 := by
  apply string_ext
  simp [String.join, data_append]

/-- The `config` subcommand on a well-formed four-line config file with
newline-free values rewrites exactly the patched lines: the saved file is the
well-formed file whose values are the patched ones where supplied and the old
ones elsewhere. -/
theorem config_mkConfigFile (a b c d : String) (pa pb pc pd : Option String)
    (ha : '\n' ∉ a.data) (hb : '\n' ∉ b.data) (hc : '\n' ∉ c.data) (hd : '\n' ∉ d.data) :
    config (mkConfigFile a b c d) pa pb pc pd
      = some (mkConfigFile (pa.getD a) (pb.getD b) (pc.getD c) (pd.getD d)) := by
  have h4 := readlines_mkConfigFile a b c d ha hb hc hd
  unfold config
  rw [h4]
  rcases pa with _ | va <;> rcases pb with _ | vb <;> rcases pc with _ | vc <;>
      rcases pd with _ | vd <;>
    (simp [pySetLine, join_four]
     apply string_ext
     simp [mkConfigFile, data_append, data_newline, List.append_assoc])

/-- C2 (amended): on a well-formed four-line config file with colon- and
newline-free values, `config` (save) followed by `config_load` returns
`ipc_socket` and `rpc_host` as the old value when unpatched and the patched
value when patched, and `rpc_port` as the integer parse of that old-or-patched
string; but the `rpc_endpoint` value comes back with its final character
stripped rather than intact, so the round-trip fails for that field. -/
theorem c2_config_roundtrip (a b c d : String) (pa pb pc pd : Option String)
    (ha : plain a) (hb : plain b) (hc : plain c) (hd : plain d)
    (hpa : plain (pa.getD a)) (hpb : plain (pb.getD b)) (hpc : plain (pc.getD c))
    (hpd : plain (pd.getD d)) :
    config (mkConfigFile a b c d) pa pb pc pd
        = some (mkConfigFile (pa.getD a) (pb.getD b) (pc.getD c) (pd.getD d))
    ∧ config_load (some (mkConfigFile (pa.getD a) (pb.getD b) (pc.getD c) (pd.getD d)))
        = .ok ⟨pa.getD a, pb.getD b, pyInt (pc.getD c), pyDropLast (pd.getD d)⟩ :=
  ⟨config_mkConfigFile a b c d pa pb pc pd ha.2 hb.2 hc.2 hd.2,
   config_load_mkConfigFile _ _ _ _ hpa hpb hpc hpd⟩

/-- Witness for C2 (amended) at a concrete file and patch. -/
theorem c2_config_roundtrip_witness :
    config (mkConfigFile "sock0" "host0" "1" "ab") none (some "newhost") (some "9600") (some "xy")
        = some (mkConfigFile "sock0" "newhost" "9600" "xy")
    ∧ config_load (some (mkConfigFile "sock0" "newhost" "9600" "xy"))
        = .ok ⟨"sock0", "newhost", pyInt "9600", pyDropLast "xy"⟩ :=
  c2_config_roundtrip "sock0" "host0" "1" "ab" none (some "newhost") (some "9600") (some "xy")
    (by decide) (by decide) (by decide) (by decide)
    (by decide) (by decide) (by decide) (by decide)

/-- Counterexample to C2 as stated: patching `rpc_endpoint` to `"xy"` and
loading the saved file back yields `"x"`, not the patched value `"xy"`. -/
theorem c2_counterexample :
    config "ipc_socket:a\nrpc_host:h\nrpc_port:1\nrpc_endpoint:ab" none none none (some "xy")
        = some "ipc_socket:a\nrpc_host:h\nrpc_port:1\nrpc_endpoint:xy"
    ∧ config_load (some "ipc_socket:a\nrpc_host:h\nrpc_port:1\nrpc_endpoint:xy")
        = .ok ⟨"a", "h", some 1, "x"⟩
    ∧ ("x" : String) ≠ "xy" :=
  ⟨by decide, by decide, by decide⟩

/-- C3 (amended): on a four-line config file whose values contain no colon
and no newline, `config_load` strips exactly the trailing newline from the
first three lines' values, but applies the same last-character strip to the
fourth line too, so the `rpc_endpoint` value is returned with its final
character removed (not intact) when the line has no trailing newline; and it
splits on every `':'` taking the segment between the first and second colon,
so a value containing `':'` is not recovered whole. -/
theorem c3_load_line_handling (a b c d : String)
    (ha : plain a) (hb : plain b) (hc : plain c) (hd : plain d) :
    config_load (some (mkConfigFile a b c d)) = .ok ⟨a, b, pyInt c, pyDropLast d⟩ :=
  config_load_mkConfigFile a b c d ha hb hc hd

/-- Witness for C3 (amended) at a concrete file. -/
theorem c3_load_line_handling_witness :
    config_load (some (mkConfigFile "sock" "host" "42" "endp"))
      = .ok ⟨"sock", "host", pyInt "42", pyDropLast "endp"⟩ :=
  c3_load_line_handling "sock" "host" "42" "endp" (by decide) (by decide) (by decide) (by decide)

/-- Counterexample to C3 as stated: the `ipc_socket` value `"ab:cd"` is
truncated at its colon (and loses one more character to `[:-1]`), and the
newline-less `rpc_endpoint` value `"xy"` is returned as `"x"`. -/
theorem c3_counterexample :
    config_load (some "ipc_socket:ab:cd\nrpc_host:h\nrpc_port:1\nrpc_endpoint:xy")
        = .ok ⟨"a", "h", some 1, "x"⟩
    ∧ ("a" : String) ≠ "ab:cd" ∧ ("x" : String) ≠ "xy" :=
  ⟨by decide, by decide, by decide⟩

/-- C8: on a well-formed four-line config file whose third (`rpc_port`) value
does not parse as an integer, `config_load` treats the port as absent (`none`)
and still succeeds rather than raising. -/
theorem c8_unparsable_port (a b c d : String)
    (ha : plain a) (hb : plain b) (hc : plain c) (hd : plain d)
    (h : pyInt c = none) :
    config_load (some (mkConfigFile a b c d)) = .ok ⟨a, b, none, pyDropLast d⟩ := by
  have hload := config_load_mkConfigFile a b c d ha hb hc hd
  rw [h] at hload
  exact hload

/-- Witness for C8 at the concrete non-numeric port value `"abc"`. -/
theorem c8_unparsable_port_witness :
    pyInt "abc" = none
    ∧ config_load (some (mkConfigFile "sock" "host" "abc" "endp"))
        = .ok ⟨"sock", "host", none, pyDropLast "endp"⟩ :=
  ⟨by decide, c8_unparsable_port "sock" "host" "abc" "endp"
    (by decide) (by decide) (by decide) (by decide) (by decide)⟩

/-- C9: when the config file cannot be opened, and on every file text with
fewer than four lines, `config_load` fails with the configuration error; and
every such error's raised message starts by stating that the config file is
either not present or not formatted correctly, followed by the wrapped cause. -/
theorem c9_load_failure :
    config_load none = .error ⟨"could not open the config file"⟩
    ∧ (∀ content, (readlines content).length < 4 →
        config_load (some content) = .error ⟨"list index out of range"⟩)
    ∧ ∀ e : ConfigError, ∃ rest,
        e.message = "The config file is either not present or not formatted correctly." ++ rest := by
  refine ⟨rfl, fun content h => ?_, fun e => ⟨"\n" ++ e.cause, ?_⟩⟩
  · have hget : (readlines content).get? 3 = none := by
      rw [List.get?_eq_none]
      omega
    have h3 : pyLineValue (readlines content) 3 = none := by
      unfold pyLineValue
      rw [hget]
      rfl
    simp only [config_load]
    cases hv0 : pyLineValue (readlines content) 0 with
    | none => rfl
    | some v0 =>
      cases hv1 : pyLineValue (readlines content) 1 with
      | none => rfl
      | some v1 =>
        rw [h3]
  · unfold ConfigError.message
    apply string_ext
    simp [data_append]

/-- Witness for C9 at the concrete one-line file text `"ab"`. -/
theorem c9_load_failure_witness :
    (readlines "ab").length < 4
    ∧ config_load (some "ab") = .error ⟨"list index out of range"⟩ :=
  ⟨by decide, c9_load_failure.2.1 "ab" (by decide)⟩

/-- A call to the external session factory `vineyard.connect`: an IPC connect
on a socket path, a splat call `vineyard.connect(*parts)` on the pieces of a
split endpoint string, or a two-argument host/port RPC connect. -/
inductive ConnectCall where
  | ipc (path : String)
  | rpcSplat (parts : List String)
  | rpcHostPort (host : String) (port : Int)
deriving DecidableEq, Repr

/-- Outcome of connection resolution: the session returned to the caller
(identified by the connect call that produced it), a propagated config-file
error, or the `exit_with_help()` termination inside the config fallback. -/
inductive ConnectResult where
  | session (c : ConnectCall)
  | raised (e : ConfigError)
  | helpExit
deriving DecidableEq, Repr

/-- `connect_via_config_file` from `cli.py`, given the environment function
`env` mapping an IPC socket path to the `rpc_endpoint` string reported by the
session opened on it (the store is external): parse the config file, then — on
Python truthiness of the persisted fields — connect via IPC and re-connect on
the reported endpoint, else via the persisted endpoint, else via persisted
host and (nonzero) port, else terminate with help. Returns the connect calls
in order and the result. -/
def connect_via_config_file_run (env : String → String) (file : Option String) :
    List ConnectCall × ConnectResult :=
  match config_load file with
  | .error e => ([], .raised e)
  | .ok cfg =>
    if cfg.ipc_socket ≠ "" then
      ([.ipc cfg.ipc_socket, .rpcSplat (pySplit (env cfg.ipc_socket))],
       .session (.rpcSplat (pySplit (env cfg.ipc_socket))))
    else if cfg.rpc_endpoint ≠ "" then
      ([.rpcSplat (pySplit cfg.rpc_endpoint)], .session (.rpcSplat (pySplit cfg.rpc_endpoint)))
    else
      match cfg.rpc_port with
      | some pt =>
        if cfg.rpc_host ≠ "" ∧ pt ≠ 0 then
          ([.rpcHostPort cfg.rpc_host pt], .session (.rpcHostPort cfg.rpc_host pt))
        else ([], .helpExit)
      | none => ([], .helpExit)

/-- `connect_vineyard` from `cli.py`: the explicit-flag `if/elif` chain over
`args.ipc_socket`, `args.rpc_endpoint`, `args.rpc_host`/`args.rpc_port`
(presence is `is not None`), falling back to `connect_via_config_file`. On the
IPC branch the session is opened on the path and immediately re-opened on the
endpoint string the first session reports. -/
def connect_vineyard_run (env : String → String)
    (ipc_socket rpc_endpoint rpc_host : Option String) (rpc_port : Option Int)
    (file : Option String) : List ConnectCall × ConnectResult :=
  match ipc_socket with
  | some p =>
    ([.ipc p, .rpcSplat (pySplit (env p))], .session (.rpcSplat (pySplit (env p))))
  | none =>
    match rpc_endpoint with
    | some e => ([.rpcSplat (pySplit e)], .session (.rpcSplat (pySplit e)))
    | none =>
      match rpc_host, rpc_port with
      | some h, some pt => ([.rpcHostPort h pt], .session (.rpcHostPort h pt))
      | _, _ => connect_via_config_file_run env file

/-- The resolution path selected by `connect_vineyard`'s explicit-flag chain. -/
inductive ResolutionPath where
  | ipcPath (p : String)
  | endpointPath (e : String)
  | hostPortPath (h : String) (pt : Int)
  | fromConfig
deriving DecidableEq, Repr

/-- The path selection of `connect_vineyard`: IPC when `--ipc_socket` is
present, else the endpoint when `--rpc_endpoint` is present, else host+port
when both are present, else the config-file fallback. -/
def connect_vineyard_path (ipc_socket rpc_endpoint rpc_host : Option String)
    (rpc_port : Option Int) : ResolutionPath :=
  match ipc_socket with
  | some p => .ipcPath p
  | none =>
    match rpc_endpoint with
    | some e => .endpointPath e
    | none =>
      match rpc_host, rpc_port with
      | some h, some pt => .hostPortPath h pt
      | _, _ => .fromConfig

/-- The resolution path selected inside the config-file fallback over the
persisted fields (Python truthiness: nonempty string, non-`None` nonzero
port), or the help-and-exit termination. -/
inductive ConfigPath where
  | ipcPath (p : String)
  | endpointPath (e : String)
  | hostPortPath (h : String) (pt : Int)
  | helpExit
deriving DecidableEq, Repr

/-- The path selection of `connect_via_config_file` over loaded values. -/
def config_file_path (cfg : LoadedConfig) : ConfigPath :=
  if cfg.ipc_socket ≠ "" then .ipcPath cfg.ipc_socket
  else if cfg.rpc_endpoint ≠ "" then .endpointPath cfg.rpc_endpoint
  else
    match cfg.rpc_port with
    | some pt => if cfg.rpc_host ≠ "" ∧ pt ≠ 0 then .hostPortPath cfg.rpc_host pt else .helpExit
    | none => .helpExit

/-- The connect calls and result belonging to a single resolution path. -/
def pathRun (env : String → String) (file : Option String) :
    ResolutionPath → List ConnectCall × ConnectResult
  | .ipcPath p =>
    ([.ipc p, .rpcSplat (pySplit (env p))], .session (.rpcSplat (pySplit (env p))))
  | .endpointPath e => ([.rpcSplat (pySplit e)], .session (.rpcSplat (pySplit e)))
  | .hostPortPath h pt => ([.rpcHostPort h pt], .session (.rpcHostPort h pt))
  | .fromConfig => connect_via_config_file_run env file

/-- C1: `connect_vineyard` selects exactly one resolution path with precedence
IPC > RPC-endpoint > RPC-host+port > config-file over the explicit flags, the
config-file fallback applies the same precedence over the persisted (truthy)
fields, and the run performs exactly the connect calls of the single selected
path — no invocation attempts more than one resolution path. -/
theorem c1_connection_precedence :
    (∀ p ep h pt, connect_vineyard_path (some p) ep h pt = .ipcPath p)
    ∧ (∀ e h pt, connect_vineyard_path none (some e) h pt = .endpointPath e)
    ∧ (∀ h pt, connect_vineyard_path none none (some h) (some pt) = .hostPortPath h pt)
    ∧ (∀ h pt, h = none ∨ pt = none → connect_vineyard_path none none h pt = .fromConfig)
    ∧ (∀ cfg : LoadedConfig, cfg.ipc_socket ≠ "" → config_file_path cfg = .ipcPath cfg.ipc_socket)
    ∧ (∀ cfg : LoadedConfig, cfg.ipc_socket = "" → cfg.rpc_endpoint ≠ "" →
        config_file_path cfg = .endpointPath cfg.rpc_endpoint)
    ∧ (∀ (cfg : LoadedConfig) pt, cfg.ipc_socket = "" → cfg.rpc_endpoint = "" →
        cfg.rpc_port = some pt → cfg.rpc_host ≠ "" → pt ≠ 0 →
        config_file_path cfg = .hostPortPath cfg.rpc_host pt)
    ∧ (∀ cfg : LoadedConfig, cfg.ipc_socket = "" → cfg.rpc_endpoint = "" →
        (cfg.rpc_port = none ∨ cfg.rpc_port = some 0 ∨ cfg.rpc_host = "") →
        config_file_path cfg = .helpExit)
    ∧ (∀ env ipc ep h pt file,
        connect_vineyard_run env ipc ep h pt file
          = pathRun env file (connect_vineyard_path ipc ep h pt)) := by
  refine ⟨fun p ep h pt => rfl, fun e h pt => rfl, fun h pt => rfl, ?_, ?_, ?_, ?_, ?_, ?_⟩
  · intro h pt hor
    rcases hor with rfl | rfl
    · cases pt <;> rfl
    · cases h <;> rfl
  · intro cfg h1
    simp [config_file_path, h1]
  · intro cfg h1 h2
    simp [config_file_path, h1, h2]
  · intro cfg pt h1 h2 h3 h4 h5
    simp [config_file_path, h1, h2, h3, h4, h5]
  · intro cfg h1 h2 hor
    rcases hor with h3 | h3 | h3
    · simp [config_file_path, h1, h2, h3]
    · simp [config_file_path, h1, h2, h3]
    · cases hp : cfg.rpc_port with
      | none => simp [config_file_path, h1, h2, hp]
      | some pt => simp [config_file_path, h1, h2, hp, h3]
  · intro env ipc ep h pt file
    cases ipc with
    | some p => rfl
    | none =>
      cases ep with
      | some e => rfl
      | none => cases h <;> cases pt <;> rfl

/-- Witness for C1 at a concrete input: host absent with port present falls
through to the config-file path. -/
theorem c1_connection_precedence_witness :
    connect_vineyard_path none none none (some 9600) = .fromConfig :=
  c1_connection_precedence.2.2.2.1 none (some 9600) (Or.inl rfl)

/-- The external store behaviour used in witnesses: the session opened on any
IPC socket path reports this RPC endpoint. -/
def envEx : String → String := fun _ => "localhost:9600"

/-- C6: whenever an IPC socket path is used — explicitly, or nonempty in the
config file — the resolver opens a session on that path and immediately opens
a second session on the split of the endpoint string reported by the first,
returning the second session; no run ever returns a raw IPC session. -/
theorem c6_ipc_handoff :
    (∀ env p ep h pt file,
      connect_vineyard_run env (some p) ep h pt file
        = ([.ipc p, .rpcSplat (pySplit (env p))], .session (.rpcSplat (pySplit (env p)))))
    ∧ (∀ env file cfg, config_load file = .ok cfg → cfg.ipc_socket ≠ "" →
        connect_via_config_file_run env file
          = ([.ipc cfg.ipc_socket, .rpcSplat (pySplit (env cfg.ipc_socket))],
             .session (.rpcSplat (pySplit (env cfg.ipc_socket)))))
    ∧ (∀ env ipc ep h pt file q,
        (connect_vineyard_run env ipc ep h pt file).2 ≠ .session (.ipc q)) := by
  refine ⟨fun env p ep h pt file => rfl, ?_, ?_⟩
  · intro env file cfg hload hip
    simp [connect_via_config_file_run, hload, hip]
  · intro env ipc ep h pt file q
    have hcfg : (connect_via_config_file_run env file).2 ≠ .session (.ipc q) := by
      unfold connect_via_config_file_run
      cases config_load file with
      | error e => simp
      | ok cfg =>
        by_cases h1 : cfg.ipc_socket ≠ ""
        · simp [h1]
        · by_cases h2 : cfg.rpc_endpoint ≠ ""
          · simp [h1, h2]
          · cases hp : cfg.rpc_port with
            | none => simp [h1, h2, hp]
            | some pt2 =>
              by_cases h3 : cfg.rpc_host ≠ "" ∧ pt2 ≠ 0
              · simp [h1, h2, hp, h3]
              · simp [h1, h2, hp, h3]
    cases ipc with
    | some p => simp [connect_vineyard_run]
    | none =>
      cases ep with
      | some e => simp [connect_vineyard_run]
      | none =>
        cases h with
        | some hh =>
          cases pt with
          | some pp => simp [connect_vineyard_run]
          | none => exact hcfg
        | none => cases pt <;> exact hcfg

/-- Witness for C6: a config file whose `ipc_socket` is a nonempty path makes
the fallback connect over IPC and return the re-opened RPC session. -/
theorem c6_ipc_handoff_witness :
    connect_via_config_file_run envEx (some (mkConfigFile "/var/run/vineyard.sock" "" "" ""))
      = ([.ipc "/var/run/vineyard.sock", .rpcSplat (pySplit (envEx "/var/run/vineyard.sock"))],
         .session (.rpcSplat (pySplit (envEx "/var/run/vineyard.sock")))) :=
  c6_ipc_handoff.2.1 envEx (some (mkConfigFile "/var/run/vineyard.sock" "" "" ""))
    ⟨"/var/run/vineyard.sock", "", none, ""⟩ (by decide) (by decide)
